import Mathlib

/-!
Shallow embedding of `src/downloader.py` (a concurrent bulk downloader for
pic.re) and proofs about it.  Byte strings are `List Nat`, file systems are
association lists from path to content, and the Python `set` of digests is a
`List String` with set-like membership and insertion.  The SHA-256 digest
function is kept abstract as a parameter `h : Bytes → String`, since `hashlib`
is an external library; every claim quantifies over it or instantiates it with
a concrete stand-in.
-/

/-- Byte sequences (Python `bytes`), each element a byte value. -/
abbrev Bytes := List Nat

/- ## Python string primitives used by the source -/

/-- Test whether the first list is a prefix of the second (used to embed
Python `str.startswith` and substring search). -/
def listIsPrefixOf : List Char → List Char → Bool
  | [], _ => true
  | _ :: _, [] => false
  | a :: as, b :: bs => a == b && listIsPrefixOf as bs

/-- Python `str.startswith`. -/
def strStartsWithSub (s p : String) : Bool :=
  listIsPrefixOf p.toList s.toList

/-- Python `str.endswith`. -/
def strEndsWithSub (s p : String) : Bool :=
  listIsPrefixOf p.toList.reverse s.toList.reverse

/-- Index of the first occurrence of `needle` in the haystack, or `none`
(Python `str.find` returns `-1` for `none`). -/
def listFindSub (needle : List Char) : List Char → Option Nat
  | [] => if listIsPrefixOf needle [] then some 0 else none
  | c :: t =>
    if listIsPrefixOf needle (c :: t) then some 0
    else (listFindSub needle t).map (fun n => n + 1)

/-- Python `str.find sub`: first index of `sub` in `s`, `none` for `-1`. -/
def strFind (s sub : String) : Option Nat :=
  listFindSub sub.toList s.toList

/-- Python `sub in s` for strings: substring containment. -/
def strContainsSub (s sub : String) : Bool :=
  (strFind s sub).isSome

/-- Python `str.lower` (ASCII case folding suffices for the headers used). -/
def strLower (s : String) : String :=
  String.mk (s.toList.map Char.toLower)

/-- Python slice `s[n:]`. -/
def strDropN (s : String) (n : Nat) : String :=
  String.mk (s.toList.drop n)

/-- Python `str.strip(c)`: remove every leading and trailing occurrence of
the character `c`. -/
def stripChars (s : String) (c : Char) : String :=
  String.mk
    (((s.toList.dropWhile (fun a => a == c)).reverse.dropWhile
        (fun a => a == c)).reverse)

/-- Python `str.split(sep)` with a one-character separator: splits on every
occurrence, keeping empty pieces, and returns `[s]` when `sep` is absent. -/
def pySplitAux (sep : Char) : List Char → List Char → List String
  | [], acc => [String.mk acc.reverse]
  | c :: t, acc =>
    if c == sep then String.mk acc.reverse :: pySplitAux sep t []
    else pySplitAux sep t (c :: acc)

/-- Python `s.split(sep)` for a single-character separator. -/
def pySplit (s : String) (sep : Char) : List String :=
  pySplitAux sep s.toList []

/-- Digit run of a Python integer literal: digits with single underscores
allowed between two digits (`int("1_0") = 10`), accumulating into `acc`. -/
def pyDigitsAux : List Char → Nat → Option Nat
  | [], acc => some acc
  | '_' :: c :: rest, acc =>
    if c.isDigit then pyDigitsAux rest (acc * 10 + (c.toNat - 48)) else none
  | c :: rest, acc =>
    if c.isDigit then pyDigitsAux rest (acc * 10 + (c.toNat - 48)) else none

/-- Python `int(s)`: optional surrounding whitespace, optional sign, then a
digit run; `none` models the `ValueError` raised otherwise. -/
def pyInt (s : String) : Option Int :=
  match ((s.toList.dropWhile (fun c => c.isWhitespace)).reverse.dropWhile
      (fun c => c.isWhitespace)).reverse with
  | '-' :: c :: rest =>
    if c.isDigit then (pyDigitsAux rest (c.toNat - 48)).map (fun n => -(n : Int))
    else none
  | '+' :: c :: rest =>
    if c.isDigit then (pyDigitsAux rest (c.toNat - 48)).map (fun n => (n : Int))
    else none
  | c :: rest =>
    if c.isDigit then (pyDigitsAux rest (c.toNat - 48)).map (fun n => (n : Int))
    else none
  | [] => none

/-- Index of the last occurrence of `c` in the list (Python `str.rfind`). -/
def lastIdx (cs : List Char) (c : Char) : Option Nat :=
  match cs with
  | [] => none
  | a :: t =>
    match lastIdx t c with
    | some k => some (k + 1)
    | none => if a == c then some 0 else none

/-- Root component of `os.path.splitext(p)` (POSIX): cut at the last dot,
unless that dot lies in the all-dots leading run of the basename. -/
def splitextRoot (p : String) : String :=
  match lastIdx p.toList '.' with
  | none => p
  | some dotIdx =>
    match lastIdx p.toList '/' with
    | some sepIdx =>
      if sepIdx < dotIdx then
        if ((p.toList.drop (sepIdx + 1)).take (dotIdx - (sepIdx + 1))).any
            (fun a => a != '.') then
          String.mk (p.toList.take dotIdx)
        else p
      else p
    | none =>
      if (p.toList.take dotIdx).any (fun a => a != '.') then
        String.mk (p.toList.take dotIdx)
      else p

/-- `os.path.join folder name` for a relative `name` on POSIX. -/
def pathJoin (a b : String) : String := a ++ "/" ++ b

/- ## The Python digest set (`set` of hex digests) -/

/-- Membership in the digest set (Python `in` on a `set`). -/
def member (x : String) : List String → Bool
  | [] => false
  | y :: t => if y == x then true else member x t

/-- Python `set.add`. -/
def setAdd (x : String) (s : List String) : List String :=
  if member x s then s else x :: s

/- ## HTTP layer (the parts of the `requests` API that the source calls) -/

/-- Response headers read by `download_image`: `content-disposition` and
`Content-Type` (requests header lookup is case-insensitive, so each is one
optional field). -/
structure Headers where
  contentDisposition : Option String
  contentType : Option String
deriving DecidableEq

/-- A `requests.Response` obtained with `stream=True`.  The body of such a
response is a stream that can be iterated only once; `consumed` records
whether `iter_content` has already drained it (requests
`Response._content_consumed`).  A response fresh from `requests.get` has
`consumed = false`. -/
structure Response where
  statusCode : Nat
  headers : Headers
  body : Bytes
  consumed : Bool
deriving DecidableEq

/-- Exceptions that the body of `download_image` can raise.  All three derive
from `requests.exceptions.RequestException` (and hence from `Exception`). -/
inductive PyExc where
  /-- network error or timeout raised by `requests.get` (downloader.py line 23) -/
  | transportError
  /-- `requests.exceptions.HTTPError` from `raise_for_status` (line 24) -/
  | httpError
  /-- `requests.exceptions.StreamConsumedError` from `iter_content` on an
  already-consumed stream (raised at line 58; requests models.py) -/
  | streamConsumed
deriving DecidableEq

/-- Every modelled exception is a `requests.exceptions.RequestException`,
so the handler at downloader.py line 66 catches it. -/
def isRequestException : PyExc → Bool
  | _ => true

/-- `Response.raise_for_status` raises `HTTPError` exactly for status codes
in `[400, 600)` (the source comments: bad responses, 4xx or 5xx). -/
def status_raises (code : Nat) : Bool :=
  decide (400 ≤ code) && decide (code < 600)

/-- `Response.iter_content`, fully iterated (as both loops in the source do):
on a fresh streamed response it yields the whole body and marks the stream
consumed; on an already-consumed stream it raises `StreamConsumedError`
(requests models.py: `if self._content_consumed and isinstance(self._content,
bool): raise StreamConsumedError()`). -/
def iter_content (r : Response) : Except PyExc (Bytes × Response) :=
  if r.consumed then .error .streamConsumed
  else .ok (r.body, ⟨r.statusCode, r.headers, r.body, true⟩)

/- ## Filename derivation (downloader.py lines 26-44) -/

/-- Default output filename `image_<i>.webp` (lines 28, 37, 42). -/
def defaultFilename (i : Int) : String :=
  "image_" ++ toString i ++ ".webp"

/-- Filename derived from a `content-disposition` header value (lines 32-35):
find `filename=`, strip surrounding double quotes from the rest of the header,
drop the extension with `os.path.splitext`, and append `_<i>.webp`; `none`
when the header value has no `filename=` (the code then keeps the default,
line 37). -/
def headerFilename (cd : String) (i : Int) : Option String :=
  match strFind cd "filename=" with
  | none => none
  | some k =>
      some (splitextRoot (stripChars (strDropN cd (k + 9)) '"') ++ "_" ++
        toString i ++ ".webp")

/-- Output filename chosen by `download_image` (lines 26-42): start from the
default, replace it by the header-derived name when a `content-disposition`
header with `filename=` is present, then fall back to the default unless
`"image/webp"` occurs in the lowercased `Content-Type` (line 41 tests
substring containment, not equality). -/
def derive_filename (hdr : Headers) (i : Int) : String :=
  if strContainsSub (strLower (hdr.contentType.getD "")) "image/webp" then
    match hdr.contentDisposition with
    | none => defaultFilename i
    | some cd => (headerFilename cd i).getD (defaultFilename i)
  else defaultFilename i

/- ## download_image (downloader.py lines 20-71) -/

/-- State visible to one `download_image` call: the files of the output
directory (path to content, later writes replacing earlier ones) and the
shared digest set `existing_hashes`. -/
structure DLState where
  files : List (String × Bytes)
  hashes : List String
deriving DecidableEq

/-- Create or truncate-and-write one file (Python `open(path, "wb")`
followed by the write loop). -/
def setFile : List (String × Bytes) → String → Bytes → List (String × Bytes)
  | [], p, c => [(p, c)]
  | (q, d) :: rest, p, c =>
    if q = p then (p, c) :: rest else (q, d) :: setFile rest p c

/-- Body of the `try` block of `download_image` (downloader.py lines 22-64).
The network outcome is an input: `fr = .error ()` when `requests.get` raised
a `RequestException`, `fr = .ok r` when it returned response `r`.  Steps, in
source order: `raise_for_status` (line 24); filename derivation (lines
26-44); the hashing loop over `iter_content` (lines 47-50), which consumes
the stream; the duplicate check against the shared set (line 52); `open`
creating the output file and the write loop over `iter_content` again (lines
57-59); the digest insertion (line 62); `return True` (line 64).  An
`.error` result carries the state at the moment the exception was raised,
since files created before it persist. -/
def download_image_body (h : Bytes → String) (fr : Except Unit Response)
    (output_folder : String) (i : Int) (st : DLState) :
    Except PyExc Bool × DLState :=
  match fr with
  | .error _ => (.error .transportError, st)
  | .ok r =>
    if status_raises r.statusCode then (.error .httpError, st)
    else
      match iter_content r with
      | .error e => (.error e, st)
      | .ok (chunks, r1) =>
        if member (h chunks) st.hashes then (.ok false, st)
        else
          match iter_content r1 with
          | .error e =>
            (.error e,
              ⟨setFile st.files
                (pathJoin output_folder (derive_filename r.headers i)) [],
               st.hashes⟩)
          | .ok (chunks2, _) =>
            (.ok true,
              ⟨setFile st.files
                (pathJoin output_folder (derive_filename r.headers i)) chunks2,
               setAdd (h chunks) st.hashes⟩)

/-- `download_image` (downloader.py lines 20-71): the body wrapped in the
two handlers, `except requests.exceptions.RequestException` (lines 66-68)
and `except Exception` (lines 69-71), both of which print and `return
False`.  A result of `.error e` would be an exception escaping to the
caller. -/
def download_image (h : Bytes → String) (fr : Except Unit Response)
    (output_folder : String) (i : Int) (st : DLState) :
    Except PyExc Bool × DLState :=
  match download_image_body h fr output_folder i st with
  | (.ok b, st1) => (.ok b, st1)
  | (.error e, st1) =>
    if isRequestException e then (.ok false, st1)
    else (.ok false, st1)

/- ## Resume scan (downloader.py lines 86-126) and calculate_sha256 (lines 6-18) -/

/-- One entry of `os.listdir` on the output directory: its name, whether it
is a regular file (`os.path.isfile`), and, for files, its byte content. -/
structure DirEntry where
  name : String
  isFile : Bool
  content : Bytes
deriving DecidableEq

/-- `calculate_sha256` (downloader.py lines 6-18): hash the content of a
regular file; `none` models the `FileNotFoundError` and generic exception
paths (for instance opening a directory), which return `None`. -/
def calculate_sha256 (h : Bytes → String) (e : DirEntry) : Option String :=
  if e.isFile then some (h e.content) else none

/-- Line 97: names from `os.listdir` filtered by
`f.startswith("image_") and f.endswith(".webp")`. -/
def existingImageFiles (dir : List DirEntry) : List String :=
  (dir.map (fun e => e.name)).filter
    (fun n => strStartsWithSub n "image_" && strEndsWithSub n ".webp")

/-- Line 103: `int(filename.split(underscore)[1].split(dot)[0])`; `none`
models the caught `IndexError` and `ValueError` (lines 105-106, a warning). -/
def parseIndex (filename : String) : Option Int :=
  match (pySplit filename '_').get? 1 with
  | none => none
  | some part =>
    match (pySplit part '.').get? 0 with
    | none => none
    | some tok => pyInt tok

/-- Maximum of a list of integers accumulated from `acc` (Python `max` over
a nonempty list, started at its head). -/
def listMaxInt : List Int → Int → Int
  | [], acc => acc
  | x :: t, acc => listMaxInt t (max acc x)

/-- Lines 97-113: the resume index.  When the filtered name list is empty the
index is 1; otherwise parse each name, and use `max + 1` when at least one
parsed, falling back to 1 when none did. -/
def scan_start_index (dir : List DirEntry) : Int :=
  match existingImageFiles dir with
  | [] => 1
  | fs =>
    match fs.filterMap parseIndex with
    | [] => 1
    | x :: t => listMaxInt t x + 1

/-- Lines 120-125: walk every directory entry, and for regular files add the
digest from `calculate_sha256` to the set when it is truthy (not `None` and
not the empty string, Python `if hash_value:`). -/
def scanHashesAux (h : Bytes → String) : List DirEntry → List String → List String
  | [], acc => acc
  | e :: t, acc =>
    if e.isFile then
      match calculate_sha256 h e with
      | some hv =>
        if hv = "" then scanHashesAux h t acc
        else scanHashesAux h t (setAdd hv acc)
      | none => scanHashesAux h t acc
    else scanHashesAux h t acc

/-- Result of the startup scan inside `download_picre_varied_images_resume`. -/
structure ScanResult where
  start_index : Int
  existing_hashes : List String
deriving DecidableEq

/-- The startup portion of `download_picre_varied_images_resume`
(downloader.py lines 97-126): derive the resume index from filenames and the
dedup set from the content of every regular file, starting from an empty
set. -/
def resume_scan (h : Bytes → String) (dir : List DirEntry) : ScanResult :=
  ⟨scan_start_index dir, scanHashesAux h dir []⟩

/- ## The CLI prompts (downloader.py lines 141-158) -/

/-- Lines 142-147: prompt for the image count until `int(input(...))`
succeeds; any integer, positive or not, ends the loop.  `inputs` is the
sequence of answers the user types; `none` models an exhausted input
stream. -/
def read_count : List String → Option Int
  | [] => none
  | s :: rest =>
    match pyInt s with
    | some n => some n
    | none => read_count rest

/-- Lines 150-158: prompt for the thread count until the answer parses as an
integer and additionally satisfies `num_threads > 0`. -/
def read_threads : List String → Option Int
  | [] => none
  | s :: rest =>
    match pyInt s with
    | some n => if n > 0 then some n else read_threads rest
    | none => read_threads rest

/- ## Demonstration digest function and concrete fixtures -/

/-- Stand-in for the SHA-256 hex digest in concrete evaluations: injective
on the byte strings used and never the empty string, like a real hex
digest. -/
def hDemo : Bytes → String := fun bs => "sha" ++ toString bs

/- ## Helper lemmas on the digest set -/

theorem member_setAdd_self (x : String) (s : List String) :
    member x (setAdd x s) = true := by
  unfold setAdd
  by_cases hm : member x s = true
  · simp [hm]
  · simp [hm, member]

theorem member_setAdd_mono (x y : String) (s : List String)
    (hm : member x s = true) : member x (setAdd y s) = true := by
  unfold setAdd
  by_cases hy : member y s = true
  · simp [hy, hm]
  · simp [hy, member, hm]

theorem scanHashesAux_mono (h : Bytes → String) (dir : List DirEntry)
    (x : String) : ∀ acc, member x acc = true →
    member x (scanHashesAux h dir acc) = true := by
  induction dir with
  | nil => intro acc hacc; simpa [scanHashesAux] using hacc
  | cons e t ih =>
    intro acc hacc
    rw [scanHashesAux]
    by_cases hf : e.isFile
    · simp only [hf, if_true, calculate_sha256]
      by_cases hz : h e.content = ""
      · simp [hz]; exact ih acc hacc
      · simp [hz]; exact ih _ (member_setAdd_mono _ _ _ hacc)
    · simp only [hf, if_false]; exact ih acc hacc

theorem scanHashesAux_cons_file (h : Bytes → String) (nm : String)
    (cont : Bytes) (t : List DirEntry) (acc : List String)
    (hz : h cont ≠ "") :
    scanHashesAux h (⟨nm, true, cont⟩ :: t) acc =
      scanHashesAux h t (setAdd (h cont) acc) := by
  rw [scanHashesAux]
  simp [calculate_sha256, hz]

theorem download_hashes_mono (h : Bytes → String) (fr : Except Unit Response)
    (folder : String) (i : Int) (st : DLState) (x : String)
    (hx : member x st.hashes = true) :
    member x (download_image h fr folder i st).2.hashes = true := by
  unfold download_image download_image_body
  cases fr with
  | error u => simpa using hx
  | ok r =>
    cases hs : status_raises r.statusCode
    · cases hc : r.consumed
      · cases hm : member (h r.body) st.hashes
        · simp [hs, iter_content, hc, hm, hx]
        · simp [hs, iter_content, hc, hm, hx]
      · simp [hs, iter_content, hc, hx]
    · simp [hs, hx]

theorem read_threads_pos : ∀ inputs n, read_threads inputs = some n → 0 < n := by
  intro inputs
  induction inputs with
  | nil => intro n hn; simp [read_threads] at hn
  | cons s t ih =>
    intro n hn
    cases hp : pyInt s with
    | none => simp only [read_threads, hp] at hn; exact ih n hn
    | some m =>
      simp only [read_threads, hp] at hn
      by_cases hm : m > 0
      · rw [if_pos hm] at hn
        cases hn
        exact hm
      · rw [if_neg hm] at hn; exact ih n hn

/- ## Claim theorems -/

/-- C1: the claim says that among all fetch results with identical content
digest at most one file is ever written, the digest-set check and insertion
acting as one atomic check-and-insert.  The code violates this: evaluating
two tasks that fetched identical bytes `[1]` one after the other (a legal
schedule of the worker pool) shows both pass the not-present check of line
52 and both create a file at line 57, while the insert of line 62 is never
reached — the second `iter_content` at line 58 raises `StreamConsumedError`
first, and in any case check and insert are two separate steps around the
write, not an atomic operation.  The final state holds two files for one
digest and an empty digest set. -/
theorem coordinator_c1_eval :
    (download_image hDemo (.ok ⟨200, ⟨none, none⟩, [1], false⟩) "out" 2
        (download_image hDemo (.ok ⟨200, ⟨none, none⟩, [1], false⟩) "out" 1
          ⟨[], []⟩).2) =
      (.ok false, ⟨[("out/image_1.webp", []), ("out/image_2.webp", [])], []⟩) :=
  rfl

/-- C2: the claim says a network-successful fetch with a novel digest writes
the full buffered bytes and returns `True`.  Evaluating the code at such an
input (status 200, body `[1, 2, 3]`, digest absent from the set) shows the
hashing loop of line 48 consumes the stream, the write loop of line 58
raises `StreamConsumedError` right after `open` created the file, and the
handler of line 66 returns `False`: the file on disk is empty, the digest
was never added, and no success is reported. -/
theorem download_image_c2_eval :
    download_image hDemo (.ok ⟨200, ⟨none, none⟩, [1, 2, 3], false⟩) "out" 1
        ⟨[], []⟩ =
      (.ok false, ⟨[("out/image_1.webp", [])], []⟩) :=
  rfl

/-- Directory listing of the C3 fixture: `image_3.webp`, `image_7.webp` and
`not_a_number.webp`, all regular files, with arbitrary contents. -/
def c3dir (c1 c2 c3 : Bytes) : List DirEntry :=
  [⟨"image_3.webp", true, c1⟩, ⟨"image_7.webp", true, c2⟩,
   ⟨"not_a_number.webp", true, c3⟩]

/-- C3: on a directory holding exactly `image_3.webp`, `image_7.webp` and
`not_a_number.webp`, the resume scan computes `start_index = 8` and the
initial dedup set holds the digests of all three files; the malformed name
is merely filtered out of the index computation (it does not start with
`image_`) and still hashed.  The digest-nonempty hypotheses reflect that a
SHA-256 hex digest is never the empty string (Python `if hash_value:`). -/
theorem scan_resume_c3 (h : Bytes → String) (c1 c2 c3 : Bytes)
    (h1 : h c1 ≠ "") (h2 : h c2 ≠ "") (h3 : h c3 ≠ "") :
    (resume_scan h (c3dir c1 c2 c3)).start_index = 8 ∧
    member (h c1) (resume_scan h (c3dir c1 c2 c3)).existing_hashes = true ∧
    member (h c2) (resume_scan h (c3dir c1 c2 c3)).existing_hashes = true ∧
    member (h c3) (resume_scan h (c3dir c1 c2 c3)).existing_hashes = true := by
  have hsc : (resume_scan h (c3dir c1 c2 c3)).existing_hashes =
      setAdd (h c3) (setAdd (h c2) (setAdd (h c1) [])) := by
    show scanHashesAux h (c3dir c1 c2 c3) [] = _
    rw [c3dir, scanHashesAux_cons_file h _ _ _ _ h1,
      scanHashesAux_cons_file h _ _ _ _ h2,
      scanHashesAux_cons_file h _ _ _ _ h3, scanHashesAux]
  refine ⟨rfl, ?_, ?_, ?_⟩ <;> rw [hsc]
  · exact member_setAdd_mono _ _ _
      (member_setAdd_mono _ _ _ (member_setAdd_self _ _))
  · exact member_setAdd_mono _ _ _ (member_setAdd_self _ _)
  · exact member_setAdd_self _ _

/-- Witness for C3 at concrete contents and a concrete digest function. -/
theorem scan_resume_c3_witness :
    (resume_scan hDemo (c3dir [1] [2] [3])).start_index = 8 ∧
    member (hDemo [1]) (resume_scan hDemo (c3dir [1] [2] [3])).existing_hashes
      = true ∧
    member (hDemo [2]) (resume_scan hDemo (c3dir [1] [2] [3])).existing_hashes
      = true ∧
    member (hDemo [3]) (resume_scan hDemo (c3dir [1] [2] [3])).existing_hashes
      = true :=
  scan_resume_c3 hDemo [1] [2] [3] (by decide) (by decide) (by decide)

/-- C4, counterexample: the claim says the header-derived filename is kept
if and only if the declared `Content-Type` exactly matches `image/webp`.
With `Content-Type: image/webp; charset=utf-8` — not exactly `image/webp` —
the code keeps the header-derived name `pic_5.webp`, because line 41 tests
`"image/webp" in content_type.lower()`, a substring check. -/
theorem filename_c4_cex :
    derive_filename
        ⟨some "attachment; filename=\"pic.png\"",
         some "image/webp; charset=utf-8"⟩ 5 = "pic_5.webp" ∧
    "pic_5.webp" ≠ defaultFilename 5 ∧
    "image/webp; charset=utf-8" ≠ "image/webp" :=
  ⟨by decide, by decide, by decide⟩

/-- C4, amended: the output extension is always forced to `.webp`, and when
the `content-disposition` header yields a filename, that header-derived name
is kept if and only if the lowercased declared `Content-Type` contains
`image/webp` as a substring (otherwise the default `image_<i>.webp` is
used). -/
theorem filename_c4_amended (cd ct : String) (i : Int) (name : String)
    (hname : headerFilename cd i = some name) :
    (∃ root, derive_filename ⟨some cd, some ct⟩ i = root ++ ".webp") ∧
    (strContainsSub (strLower ct) "image/webp" = true →
      derive_filename ⟨some cd, some ct⟩ i = name) ∧
    (strContainsSub (strLower ct) "image/webp" = false →
      derive_filename ⟨some cd, some ct⟩ i = defaultFilename i) := by
  obtain ⟨k, hk⟩ : ∃ k, strFind cd "filename=" = some k := by
    cases hf : strFind cd "filename="
    · rw [headerFilename, hf] at hname; exact absurd hname (by simp)
    · exact ⟨_, rfl⟩
  rw [headerFilename, hk] at hname
  have hshape :
      name = splitextRoot (stripChars (strDropN cd (k + 9)) '"') ++ "_" ++
        toString i ++ ".webp" :=
    (Option.some.inj hname).symm
  unfold derive_filename
  cases hw : strContainsSub (strLower ct) "image/webp"
  · simp only [Option.getD_some, hw, Bool.false_eq_true, if_false]
    exact ⟨⟨"image_" ++ toString i, rfl⟩, fun hx => by simp at hx,
      fun _ => by trivial⟩
  · simp only [Option.getD_some, hw, if_true, headerFilename, hk,
      Option.getD_some]
    refine ⟨⟨splitextRoot (stripChars (strDropN cd (k + 9)) '"') ++ "_" ++
      toString i, hshape ▸ rfl⟩, fun _ => hshape.symm, fun hx => by simp at hx⟩

/-- Witness for C4 at a concrete header pair: the header names `a.png`, the
content type is `image/webp`, so the kept name is `a_1.webp`. -/
theorem filename_c4_amended_witness :
    (∃ root, derive_filename ⟨some "filename=a.png", some "image/webp"⟩ 1 =
      root ++ ".webp") ∧
    (strContainsSub (strLower "image/webp") "image/webp" = true →
      derive_filename ⟨some "filename=a.png", some "image/webp"⟩ 1 =
        "a_1.webp") ∧
    (strContainsSub (strLower "image/webp") "image/webp" = false →
      derive_filename ⟨some "filename=a.png", some "image/webp"⟩ 1 =
        defaultFilename 1) :=
  filename_c4_amended "filename=a.png" "image/webp" 1 "a_1.webp" (by decide)

/-- C5, counterexample: the claim says the CLI accepts the total item count
only when it is a positive integer.  The count loop of lines 142-147 checks
only that `int(input(...))` succeeds: the single answer `"0"` is accepted,
and `0` is not positive, so a non-positive count reaches
`download_picre_varied_images_resume` at line 160. -/
theorem cli_c5_cex : read_count ["0"] = some 0 ∧ ¬ (0 : Int) > 0 :=
  ⟨by decide, by decide⟩

/-- C5, amended: the thread prompt accepts only positive integers,
re-prompting on non-integer or non-positive answers, but the count prompt
accepts any integer — re-prompting only on answers that fail to parse — so
a zero or negative count reaches the downloader core (where the dispatched
index range is then empty). -/
theorem cli_c5_amended :
    (∀ inputs n, read_threads inputs = some n → 0 < n) ∧
    (∀ s n, pyInt s = some n → read_count [s] = some n) ∧
    read_count ["abc", "7"] = some 7 := by
  refine ⟨read_threads_pos, ?_, by decide⟩
  intro s n hp
  simp [read_count, hp]

/-- Witness for C5: the thread answer `"5"` is accepted and positive, and
the count answer `"0"` is accepted even though it is not positive. -/
theorem cli_c5_amended_witness :
    0 < (5 : Int) ∧ read_count ["0"] = some 0 :=
  ⟨cli_c5_amended.1 ["5"] 5 (by decide), cli_c5_amended.2.1 "0" 0 (by decide)⟩

/-- C6: a transport-level failure (exception from `requests.get`, line 23)
or an HTTP status in the 4xx-5xx range raised by `raise_for_status` (line
24) makes `download_image` return `False` with the handler of lines 66-68,
and no file is touched: the final state equals the initial one. -/
theorem download_failure_c6 (h : Bytes → String) (fr : Except Unit Response)
    (folder : String) (i : Int) (st : DLState)
    (hfail : fr = .error () ∨
      ∃ r, fr = .ok r ∧ 400 ≤ r.statusCode ∧ r.statusCode < 600) :
    download_image h fr folder i st = (.ok false, st) := by
  rcases hfail with hfr | ⟨r, hfr, hlo, hhi⟩
  · subst hfr; rfl
  · subst hfr
    have hs : status_raises r.statusCode = true := by
      simp only [status_raises, Bool.and_eq_true, decide_eq_true_eq]
      exact ⟨hlo, hhi⟩
    unfold download_image download_image_body
    simp [hs]

/-- Witness for C6 at a concrete transport failure. -/
theorem download_failure_c6_witness :
    download_image hDemo (.error ()) "out" 1 ⟨[], []⟩ = (.ok false, ⟨[], []⟩) :=
  download_failure_c6 hDemo (.error ()) "out" 1 ⟨[], []⟩ (Or.inl rfl)

/-- C7: when the digest of the fetched bytes is already in the shared set at
check time (line 52), `download_image` returns `False` before the `open` of
line 57, leaving both the file list and the digest set exactly as they
were. -/
theorem duplicate_skip_c7 (h : Bytes → String) (r : Response) (folder : String)
    (i : Int) (st : DLState) (hfresh : r.consumed = false)
    (hok : status_raises r.statusCode = false)
    (hdup : member (h r.body) st.hashes = true) :
    download_image h (.ok r) folder i st = (.ok false, st) := by
  unfold download_image download_image_body
  simp [hok, iter_content, hfresh, hdup]

/-- Witness for C7 at a concrete duplicate. -/
theorem duplicate_skip_c7_witness :
    download_image hDemo (.ok ⟨200, ⟨none, none⟩, [9], false⟩) "out" 1
        ⟨[], ["sha[9]"]⟩ =
      (.ok false, ⟨[], ["sha[9]"]⟩) :=
  duplicate_skip_c7 hDemo ⟨200, ⟨none, none⟩, [9], false⟩ "out" 1
    ⟨[], ["sha[9]"]⟩ rfl (by decide) (by decide)

/-- C9: the shared digest set only grows.  Every digest present in the set
before a `download_image` call is still present afterwards (the only
operation the call performs on the set is the membership test of line 52
and the `add` of line 62), and the startup scan of lines 120-125 likewise
only inserts into the set it is building. -/
theorem hashes_monotone_c9 (h : Bytes → String) (fr : Except Unit Response)
    (folder : String) (i : Int) (st : DLState) (dir : List DirEntry)
    (acc : List String) (x : String)
    (hx1 : member x st.hashes = true) (hx2 : member x acc = true) :
    member x (download_image h fr folder i st).2.hashes = true ∧
    member x (scanHashesAux h dir acc) = true :=
  ⟨download_hashes_mono h fr folder i st x hx1,
   scanHashesAux_mono h dir x acc hx2⟩

/-- Witness for C9 at a concrete digest and call. -/
theorem hashes_monotone_c9_witness :
    member "d" (download_image hDemo (.error ()) "out" 1
      ⟨[], ["d"]⟩).2.hashes = true ∧
    member "d" (scanHashesAux hDemo [] ["d"]) = true :=
  hashes_monotone_c9 hDemo (.error ()) "out" 1 ⟨[], ["d"]⟩ [] ["d"] "d"
    (by decide) (by decide)

/-- C8: scanning an empty output directory yields `start_index = 1` and an
empty dedup set, for every digest function. -/
theorem scan_empty_c8 (h : Bytes → String) : resume_scan h [] = ⟨1, []⟩ := rfl

/-- C10, counterexample: the claim says `download_image` returns `True`
exactly when a new file was written.  At a successful fresh response with
novel body `[7]` the call returns `False` and yet a new (empty) file has
appeared at `o/image_4.webp`: the `open` of line 57 created it before the
write loop of line 58 raised `StreamConsumedError`. -/
theorem total_c10_cex :
    (download_image hDemo (.ok ⟨200, ⟨none, none⟩, [7], false⟩) "o" 4
      ⟨[], []⟩).1 = .ok false ∧
    (download_image hDemo (.ok ⟨200, ⟨none, none⟩, [7], false⟩) "o" 4
      ⟨[], []⟩).2.files = [("o/image_4.webp", [])] :=
  ⟨rfl, rfl⟩

/-- C10, amended: `download_image` is total at its boundary — for every
input and every network outcome it propagates no exception and returns a
boolean, so one task can never abort its siblings — but that boolean is
always `False`: every exception the body raises is a `RequestException`
caught at line 66, and the `return True` of line 64 is unreachable because
the write loop of line 58 always finds the stream already consumed (a
`False` return may still leave a newly created empty file behind). -/
theorem total_c10_amended (h : Bytes → String) (fr : Except Unit Response)
    (folder : String) (i : Int) (st : DLState) :
    (download_image h fr folder i st).1 = .ok false := by
  unfold download_image download_image_body
  cases fr with
  | error u => rfl
  | ok r =>
    cases hs : status_raises r.statusCode
    · cases hc : r.consumed
      · cases hm : member (h r.body) st.hashes
        · simp [hs, iter_content, hc, hm]
        · simp [hs, iter_content, hc, hm]
      · simp [hs, iter_content, hc]
    · simp [hs]
